import Mathlib

/-!
Shallow embedding of the multi-IP forward proxy (`src/main.rs`) and proofs
about its request-routing core: configuration validation, basic-auth gating,
target resolution, round-robin egress selection, and the per-request
orchestration of the three proxy hooks.
-/

namespace PingoraForwardProxy

/-- Size of the `usize` machine-integer space on the 64-bit targets the
program runs on; `AtomicUsize::fetch_add` wraps around at this modulus. -/
def USIZE_SIZE : Nat := 2 ^ 64

/-! ## UTF-8 and base64 (models the `base64` crate's STANDARD engine) -/

/-- UTF-8 encoding of a single scalar value, as a list of byte values. -/
def charUtf8 (c : Char) : List Nat :=
  let n := c.toNat
  if n < 0x80 then [n]
  else if n < 0x800 then [0xC0 + n / 0x40, 0x80 + n % 0x40]
  else if n < 0x10000 then
    [0xE0 + n / 0x1000, 0x80 + n / 0x40 % 0x40, 0x80 + n % 0x40]
  else
    [0xF0 + n / 0x40000, 0x80 + n / 0x1000 % 0x40, 0x80 + n / 0x40 % 0x40,
     0x80 + n % 0x40]

/-- The UTF-8 bytes of a string (Rust `String`s are UTF-8). -/
def strBytes (s : String) : List Nat :=
  (s.data.map charUtf8).flatten

/-- The 64 characters of the standard base64 alphabet. -/
def base64Alphabet : List Char :=
  "ABCDEFGHIJKLMNOPQRSTUVWXYZabcdefghijklmnopqrstuvwxyz0123456789+/".data

/-- The alphabet character for one 6-bit group. -/
def base64Digit (n : Nat) : Char := base64Alphabet.getD n 'A'

/-- Standard base64 with padding over a byte list, three input bytes at a
time, as performed by `base64::engine::general_purpose::STANDARD.encode`. -/
def base64EncodeBytes : List Nat → List Char
  | [] => []
  | [b1] => [base64Digit (b1 / 4), base64Digit (b1 % 4 * 16), '=', '=']
  | [b1, b2] =>
    [base64Digit (b1 / 4), base64Digit (b1 % 4 * 16 + b2 / 16),
     base64Digit (b2 % 16 * 4), '=']
  | b1 :: b2 :: b3 :: rest =>
    base64Digit (b1 / 4) :: base64Digit (b1 % 4 * 16 + b2 / 16) ::
    base64Digit (b2 % 16 * 4 + b3 / 64) :: base64Digit (b3 % 64) ::
    base64EncodeBytes rest

/-- Base64 encoding of a string's UTF-8 bytes. -/
def base64Encode (s : String) : String :=
  String.mk (base64EncodeBytes (strBytes s))

/-! ## Configuration (`ProxyConfig`) -/

/-- Mirrors `struct ProxyConfig`. -/
structure ProxyConfig where
  ip_addresses : List String
  username : String
  password : String
  listen_address : String
deriving Repr, DecidableEq

/-- Mirrors `ProxyConfig::parse_ip_pool` applied to the value of the
`IP_POOL` variable: split on commas, trim each entry, drop empty entries. -/
def parse_ip_pool (ip_pool_env : String) : List String :=
  ((ip_pool_env.splitOn ",").map String.trim).filter (fun ip => !ip.isEmpty)

/-- Mirrors `ProxyConfig::load_from_environment`; each argument is the value
of the corresponding environment variable, `none` when unset. -/
def load_from_environment (ip_pool_env proxy_user_env proxy_pass_env
    listen_addr_env : Option String) : ProxyConfig :=
  { ip_addresses := parse_ip_pool (ip_pool_env.getD "127.0.0.1")
  , username := proxy_user_env.getD "proxy_user"
  , password := proxy_pass_env.getD "proxy_pass"
  , listen_address := listen_addr_env.getD "0.0.0.0:7777" }

/-- Mirrors `ProxyConfig::validate`. -/
def ProxyConfig.validate (c : ProxyConfig) : Except String Unit :=
  if c.ip_addresses.isEmpty then
    Except.error "IP_POOL is empty. Please set IP_POOL environment variable."
  else if c.username.isEmpty then
    Except.error "PROXY_USER cannot be empty."
  else if c.password.isEmpty then
    Except.error "PROXY_PASS cannot be empty."
  else
    Except.ok ()

/-! ## Proxy state (`MultiIPProxy`) -/

/-- Mirrors `struct MultiIPProxy`; `request_counter` is the current value of
the `AtomicUsize` (always below `USIZE_SIZE`). -/
structure MultiIPProxy where
  ip_addresses : List String
  request_counter : Nat
  expected_auth_header : String
deriving Repr, DecidableEq

/-- Mirrors `MultiIPProxy::create_basic_auth_header`. -/
def create_basic_auth_header (username password : String) : String :=
  "Basic " ++ base64Encode (username ++ ":" ++ password)

/-- Mirrors `MultiIPProxy::new`: counter starts at 0 and the expected header
is precomputed from the credentials. -/
def MultiIPProxy.new (ip_addresses : List String) (username password : String) :
    MultiIPProxy :=
  { ip_addresses
  , request_counter := 0
  , expected_auth_header := create_basic_auth_header username password }

/-- Mirrors `MultiIPProxy::select_next_ip`: `fetch_add` returns the old
counter and wraps at the `usize` modulus; the old counter mod the pool length
indexes the pool. Indexing an empty pool panics in Rust (`% 0`), modelled as
`none`; note the counter increment still happens first. -/
def select_next_ip (p : MultiIPProxy) : Option String × MultiIPProxy :=
  let request_number := p.request_counter
  let next := { p with request_counter := (request_number + 1) % USIZE_SIZE }
  if p.ip_addresses.length = 0 then (none, next)
  else
    (some (p.ip_addresses.getD (request_number % p.ip_addresses.length) ""),
     next)

/-- Mirrors `MultiIPProxy::verify_authentication`. -/
def verify_authentication (p : MultiIPProxy) (auth_header : Option String) :
    Bool :=
  match auth_header with
  | some header => header == p.expected_auth_header
  | none => false

/-- `n` consecutive sequential calls to `select_next_ip`, collecting the
returned addresses in order. -/
def select_run : Nat → MultiIPProxy → List (Option String) × MultiIPProxy
  | 0, p => ([], p)
  | Nat.succ n, p =>
    let r := select_next_ip p
    let rest := select_run n r.2
    (r.1 :: rest.1, rest.2)

/-! ## Request model (the accessors of `pingora`'s `Session` / `http::Uri`
that the code uses) -/

/-- The authority component of a request URI: a host and an optional
explicit port. `http::uri::Authority::as_str` renders both. -/
structure Authority where
  host : String
  port : Option Nat
deriving Repr, DecidableEq

/-- Models `http::uri::Authority::as_str`: the full authority string,
including the explicit port when present. -/
def Authority.as_str (a : Authority) : String :=
  a.host ++ (match a.port with
             | some p => ":" ++ toString p
             | none => "")

/-- The parts of `http::Uri` the code reads. -/
structure Uri where
  scheme : Option String
  authority : Option Authority
deriving Repr, DecidableEq

/-- Models `Uri::scheme_str`. -/
def Uri.scheme_str (u : Uri) : Option String := u.scheme

/-- Models `Uri::port_u16`: the explicit port of the authority, if any. -/
def Uri.port_u16 (u : Uri) : Option Nat := u.authority.bind Authority.port

/-- The parts of a `pingora` `Session`'s request header that the core reads:
the URI and the raw bytes of the `Proxy-Authorization` header (`none` when
the header is absent). -/
structure Session where
  uri : Uri
  proxy_authorization : Option (List Nat)
deriving Repr, DecidableEq

/-! ## Helper functions of the source -/

/-- Mirrors `struct TargetInfo`. -/
structure TargetInfo where
  host : String
  port : Nat
  use_tls : Bool
deriving Repr, DecidableEq

/-- Mirrors `extract_target_info`. -/
def extract_target_info (s : Session) : TargetInfo :=
  let uri := s.uri
  let host := (uri.authority.map Authority.as_str).getD "localhost"
  let use_tls := uri.scheme_str == some "https"
  let default_port := if use_tls then 443 else 80
  let port := uri.port_u16.getD default_port
  { host := host, port := port, use_tls := use_tls }

/-- The fields of `pingora`'s `HttpPeer` the program determines: destination
address, TLS flag, SNI, and the optional local bind address of the outbound
connection (`peer.options.bind_to`). -/
structure HttpPeer where
  address : String
  tls : Bool
  sni : String
  bind_to : Option String
deriving Repr, DecidableEq

/-- Models `pingora`'s `HttpPeer::new(address, tls, sni)`, which builds a
peer with default options; the default leaves `bind_to` unset (`None`). -/
def HttpPeer.new (address : String) (tls : Bool) (sni : String) : HttpPeer :=
  { address := address, tls := tls, sni := sni, bind_to := none }

/-- Mirrors `create_http_peer`. -/
def create_http_peer (target : TargetInfo) : HttpPeer :=
  let address := target.host ++ ":" ++ toString target.port
  HttpPeer.new address target.use_tls target.host

/-- Models `http::HeaderValue::is_visible_ascii`: byte in `32..127` or tab. -/
def is_visible_ascii (b : Nat) : Bool :=
  (32 ≤ b && b < 127) || b == 9

/-- Models `http::HeaderValue::to_str`, which succeeds exactly when every
byte of the value is visible ASCII (or tab). -/
def header_value_to_str (bytes : List Nat) : Option String :=
  if bytes.all is_visible_ascii then
    some (String.mk (bytes.map Char.ofNat))
  else none

/-- Mirrors `extract_auth_header`. -/
def extract_auth_header (s : Session) : Option String :=
  s.proxy_authorization.bind header_value_to_str

/-- The response written on the request's channel: status, headers, body. -/
structure HttpResponse where
  status : Nat
  headers : List (String × String)
  body : String
deriving Repr, DecidableEq

/-- Mirrors `send_auth_required_response`: the 407 challenge it writes. -/
def send_auth_required_response : HttpResponse :=
  { status := 407
  , headers := [("Proxy-Authenticate", "Basic realm=\"Proxy\""),
                ("Content-Type", "text/plain")]
  , body := "Proxy Authentication Required" }

/-! ## Hook implementations (`impl ProxyHttp for MultiIPProxy`) -/

/-- Mirrors `request_filter`: `true` means stop processing (with the 407
response written), `false` means let the request proceed. -/
def request_filter (p : MultiIPProxy) (s : Session) :
    Bool × Option HttpResponse :=
  let auth_header := extract_auth_header s
  if verify_authentication p auth_header then (false, none)
  else (true, some send_auth_required_response)

/-- Mirrors `upstream_peer`: selects the next egress IP (mutating the shared
counter), resolves the target, and builds the peer with `create_http_peer`.
`none` models the panic on an empty pool. -/
def upstream_peer (p : MultiIPProxy) (s : Session) :
    Option HttpPeer × MultiIPProxy :=
  match select_next_ip p with
  | (none, next) => (none, next)
  | (some _source_ip, next) =>
    let target_info := extract_target_info s
    (some (create_http_peer target_info), next)

/-- Outcome of one request, as dispatched by the proxy engine. -/
inductive RequestOutcome where
  | denied (response : HttpResponse)
  | forwarded (peer : HttpPeer)
  | failed
deriving Repr, DecidableEq

/-- The engine's per-request orchestration: `request_filter` first; only when
it returns `false` (continue) is `upstream_peer` invoked. -/
def process_request (p : MultiIPProxy) (s : Session) :
    RequestOutcome × MultiIPProxy :=
  match request_filter p s with
  | (true, some resp) => (RequestOutcome.denied resp, p)
  | (true, none) => (RequestOutcome.failed, p)
  | (false, _) =>
    match upstream_peer p s with
    | (some peer, p') => (RequestOutcome.forwarded peer, p')
    | (none, p') => (RequestOutcome.failed, p')

/-! ## Entry point (`main`) -/

/-- What `main` does up to handing control to the server: exit with an error
before any listener is created, or start the server on the configured listen
address. -/
inductive MainOutcome where
  | exit_error (message : String)
  | server_running (listen_address : String)
deriving Repr, DecidableEq

/-- Mirrors `main`: load configuration from the environment, validate, exit
non-zero on a validation error, otherwise start the proxy server. -/
def run_main (ip_pool_env proxy_user_env proxy_pass_env
    listen_addr_env : Option String) : MainOutcome :=
  let config := load_from_environment ip_pool_env proxy_user_env
    proxy_pass_env listen_addr_env
  match config.validate with
  | Except.error msg => MainOutcome.exit_error msg
  | Except.ok _ => MainOutcome.server_running config.listen_address

/-! ## Concrete example values used to instantiate the theorems -/

/-- A request with scheme `http`, authority `example.com`, no explicit port,
and no `Proxy-Authorization` header. -/
def ex_session : Session :=
  { uri := { scheme := some "http"
           , authority := some { host := "example.com", port := none } }
  , proxy_authorization := none }

/-- A request with scheme `https` and authority `example.com:8080`. -/
def ex_session_port : Session :=
  { uri := { scheme := some "https"
           , authority := some { host := "example.com", port := some 8080 } }
  , proxy_authorization := none }

/-- A request carrying a `Proxy-Authorization` header whose bytes include the
non-visible-ASCII byte `0x01`. -/
def ex_session_bad : Session :=
  { uri := { scheme := some "http"
           , authority := some { host := "example.com", port := none } }
  , proxy_authorization := some [66, 1] }

/-- A proxy state over a two-address pool. -/
def ex_proxy : MultiIPProxy :=
  MultiIPProxy.new ["10.0.0.1", "10.0.0.2"] "user" "pass"

/-- The peer the code builds for `ex_session`. -/
def ex_peer : HttpPeer := create_http_peer (extract_target_info ex_session)

/-! ## Helper lemmas -/

/-- Reading a list at every index of `range` its length reproduces the list. -/
theorem getD_range_eq (l : List String) :
    (List.range l.length).map (fun i => l.getD i "") = l := by
  apply List.ext_getElem
  · simp
  · intro i h1 h2
    simp [List.getElem_range, List.getD_eq_getElem?_getD,
      List.getElem?_eq_getElem h2]

/-- The indices `(c + i) % n` for `i < n` are a permutation of `range n`. -/
theorem range_map_add_mod_perm (c n : Nat) (hn : 0 < n) :
    ((List.range n).map (fun i => (c + i) % n)).Perm (List.range n) := by
  have hnd : ((List.range n).map (fun i => (c + i) % n)).Nodup := by
    refine (List.nodup_range n).map_on ?_
    intro x hx y hy hxy
    rw [List.mem_range] at hx hy
    have hmod : x % n = y % n := Nat.ModEq.add_left_cancel' c hxy
    rwa [Nat.mod_eq_of_lt hx, Nat.mod_eq_of_lt hy] at hmod
  have hsub : ((List.range n).map (fun i => (c + i) % n)) ⊆ List.range n := by
    intro x hx
    rw [List.mem_map] at hx
    obtain ⟨i, _, rfl⟩ := hx
    exact List.mem_range.mpr (Nat.mod_lt _ hn)
  refine (hnd.subperm hsub).perm_of_length_le ?_
  simp

/-- Explicit description of a sequential run of `select_next_ip` while the
counter does not wrap: the `i`-th call indexes the pool at `(c + i) % len`. -/
theorem select_run_eq (pool : List String) (e : String) :
    ∀ (n c : Nat), pool ≠ [] → c + n ≤ USIZE_SIZE →
    (select_run n ⟨pool, c, e⟩).1
      = (List.range n).map
          (fun i => some (pool.getD ((c + i) % pool.length) "")) := by
  intro n
  induction n with
  | zero => intro c _ _; rfl
  | succ m ih =>
    intro c hne hc
    have hlen : pool.length ≠ 0 := by
      simpa [List.length_eq_zero] using hne
    have hstep : select_next_ip ⟨pool, c, e⟩
        = (some (pool.getD (c % pool.length) ""),
           ⟨pool, (c + 1) % USIZE_SIZE, e⟩) := by
      simp [select_next_ip, hlen]
    rcases Nat.lt_or_ge (c + 1) USIZE_SIZE with hlt | hge
    · have hmod : (c + 1) % USIZE_SIZE = c + 1 := Nat.mod_eq_of_lt hlt
      have ih' := ih (c + 1) hne (by omega)
      have hfun : ((fun i => some (pool.getD ((c + i) % pool.length) "")) ∘
          Nat.succ) = fun i => some (pool.getD ((c + 1 + i) % pool.length) "") := by
        funext i
        show some (pool.getD ((c + (i + 1)) % pool.length) "") = _
        rw [show c + (i + 1) = c + 1 + i by omega]
      simp only [select_run, hstep, hmod, ih', List.range_succ_eq_map,
        List.map_cons, List.map_map, hfun, Nat.add_zero]
    · have hm : m = 0 := by
        have : c + 1 ≤ USIZE_SIZE := by omega
        omega
      subst hm
      simp only [select_run, hstep, List.range_succ_eq_map, List.range_zero,
        List.map_nil, List.map_cons, Nat.add_zero]

/-! ## Claim theorems -/

/-- C2 (counterexample): at starting counter value `2^64 - 1` (the largest
`usize`), three consecutive selections over the pool `["a", "b", "c"]`
return `a, a, b` — not a permutation of the pool, because the wraparound of
`fetch_add` restarts the residue sequence mid-cycle. -/
theorem select_run_wraparound_cex :
    ¬ ((select_run 3 ⟨["a", "b", "c"], USIZE_SIZE - 1, ""⟩).1.Perm
        (["a", "b", "c"].map some)) := by decide

/-- C2 (amended): for every non-empty pool and every starting counter value
`c` such that the counter does not wrap during the cycle
(`c + N ≤ 2^64`), the `N = pool.length` consecutive sequential selections
are a permutation of the pool — each member exactly once per cycle. -/
theorem select_run_round_robin (pool : List String) (c : Nat) (e : String)
    (hne : pool ≠ []) (hc : c + pool.length ≤ USIZE_SIZE) :
    ((select_run pool.length ⟨pool, c, e⟩).1).Perm (pool.map some) := by
  rw [select_run_eq pool e pool.length c hne hc]
  have hpos : 0 < pool.length := List.length_pos.mpr hne
  have hperm := (range_map_add_mod_perm c pool.length hpos).map
      (fun j => some (pool.getD j ""))
  have hcomp : (List.range pool.length).map
        (fun i => some (pool.getD ((c + i) % pool.length) ""))
      = ((List.range pool.length).map (fun i => (c + i) % pool.length)).map
          (fun j => some (pool.getD j "")) := by
    rw [List.map_map]; rfl
  have hid : (List.range pool.length).map (fun j => some (pool.getD j ""))
      = pool.map some := by
    have h1 : (List.range pool.length).map (fun j => some (pool.getD j ""))
        = ((List.range pool.length).map (fun j => pool.getD j "")).map some := by
      rw [List.map_map]; rfl
    rw [h1, getD_range_eq]
  rw [hcomp]
  rw [hid] at hperm
  exact hperm

/-- C2 (witness): a concrete cycle over the pool `["x", "y"]` starting at
counter 5. -/
theorem select_run_round_robin_witness :
    (["x", "y"] : List String) ≠ [] ∧ 5 + 2 ≤ USIZE_SIZE ∧
    ((select_run 2 ⟨["x", "y"], 5, ""⟩).1).Perm (["x", "y"].map some) := by
  refine ⟨by decide, by decide, ?_⟩
  exact select_run_round_robin ["x", "y"] 5 "" (by decide) (by decide)

/-- C9: for a non-empty pool the selection index `counter % len` is strictly
below the pool length, the selected address is a pool member, and a
singleton pool always yields its unique address. -/
theorem select_next_ip_safe (p : MultiIPProxy) (h : p.ip_addresses ≠ []) :
    p.request_counter % p.ip_addresses.length < p.ip_addresses.length ∧
    (∃ x, (select_next_ip p).1 = some x ∧ x ∈ p.ip_addresses) ∧
    (∀ a, p.ip_addresses = [a] → (select_next_ip p).1 = some a) := by
  have hlen : p.ip_addresses.length ≠ 0 := by
    simpa [List.length_eq_zero] using h
  have hpos : 0 < p.ip_addresses.length := Nat.pos_of_ne_zero hlen
  have hidx : p.request_counter % p.ip_addresses.length
      < p.ip_addresses.length := Nat.mod_lt _ hpos
  refine ⟨hidx, ?_, ?_⟩
  · refine ⟨p.ip_addresses.getD (p.request_counter % p.ip_addresses.length) "",
      ?_, ?_⟩
    · simp [select_next_ip, hlen]
    · rw [List.getD_eq_getElem?_getD, List.getElem?_eq_getElem hidx]
      exact List.getElem_mem hidx
  · intro a ha
    simp [select_next_ip, ha, Nat.mod_one]

/-- C9 (witness): a singleton pool at counter 7 yields its unique address. -/
theorem select_next_ip_safe_witness :
    (MultiIPProxy.mk ["10.0.0.1"] 7 "").ip_addresses ≠ [] ∧
    (select_next_ip ⟨["10.0.0.1"], 7, ""⟩).1 = some "10.0.0.1" := by
  refine ⟨by decide, ?_⟩
  exact (select_next_ip_safe ⟨["10.0.0.1"], 7, ""⟩ (by decide)).2.2
    "10.0.0.1" rfl

/-- C1: the code does not wire the selected egress address into the peer —
every peer returned by `upstream_peer` leaves the outbound connection's
local bind address unset (`bind_to = none`), because `create_http_peer`
builds the peer with `HttpPeer::new` and never touches its options; the
selected IP is only logged. -/
theorem upstream_peer_bind_to_none (p : MultiIPProxy) (s : Session) :
    ∀ peer : HttpPeer, (upstream_peer p s).1 = some peer →
    peer.bind_to = none := by
  intro peer hpeer
  unfold upstream_peer at hpeer
  split at hpeer
  · simp at hpeer
  · simp at hpeer
    rw [← hpeer]
    rfl

/-- C1 (witness): a concrete authenticated-path request whose peer has no
local bind address. -/
theorem upstream_peer_bind_to_none_witness :
    (upstream_peer ex_proxy ex_session).1 = some ex_peer ∧
    ex_peer.bind_to = none :=
  ⟨rfl, upstream_peer_bind_to_none ex_proxy ex_session ex_peer rfl⟩

/-- C3: authentication succeeds exactly on the precomputed value
`"Basic " ++ base64(username ++ ":" ++ password)`; an absent header and an
empty header are denied. -/
theorem verify_authentication_iff (ips : List String) (u pw : String)
    (h : Option String) :
    (verify_authentication (MultiIPProxy.new ips u pw) h = true ↔
      h = some ("Basic " ++ base64Encode (u ++ ":" ++ pw))) ∧
    verify_authentication (MultiIPProxy.new ips u pw) none = false ∧
    verify_authentication (MultiIPProxy.new ips u pw) (some "") = false := by
  have hexp : (MultiIPProxy.new ips u pw).expected_auth_header
      = "Basic " ++ base64Encode (u ++ ":" ++ pw) := rfl
  have hne : ("" : String) ≠ "Basic " ++ base64Encode (u ++ ":" ++ pw) := by
    intro hcontra
    have hlen := congrArg String.length hcontra
    rw [String.length_append] at hlen
    have h0 : ("" : String).length = 0 := rfl
    have h6 : ("Basic " : String).length = 6 := rfl
    omega
  refine ⟨?_, rfl, ?_⟩
  · cases h with
    | none => simp [verify_authentication]
    | some v => simp [verify_authentication, hexp]
  · simp [verify_authentication, hexp, hne]

/-- C4: `use_tls` holds exactly when the scheme is `https`; the resolved
port is the explicit port when present, else 443 for `https` and 80 for any
other scheme. -/
theorem extract_target_info_spec (s : Session) :
    ((extract_target_info s).use_tls = true ↔ s.uri.scheme = some "https") ∧
    (extract_target_info s).port
      = s.uri.port_u16.getD
          (if s.uri.scheme = some "https" then 443 else 80) := by
  constructor
  · simp [extract_target_info, Uri.scheme_str]
  · by_cases hs : s.uri.scheme = some "https" <;>
      simp [extract_target_info, Uri.scheme_str, hs]

/-- C5: when the authority carries an explicit port, the resolved host is
the full authority string with the port, so the peer's destination string
repeats the port and the TLS server name also contains the port. -/
theorem explicit_port_duplicated (s : Session) (h : String) (pt : Nat)
    (ha : s.uri.authority = some ⟨h, some pt⟩) :
    (extract_target_info s).host = h ++ ":" ++ toString pt ∧
    (create_http_peer (extract_target_info s)).address
      = h ++ ":" ++ toString pt ++ ":" ++ toString pt ∧
    (create_http_peer (extract_target_info s)).sni
      = h ++ ":" ++ toString pt := by
  have hhost : (extract_target_info s).host = h ++ ":" ++ toString pt := by
    simp [extract_target_info, ha, Authority.as_str, String.append_assoc]
  have hport : (extract_target_info s).port = pt := by
    simp [extract_target_info, Uri.port_u16, ha]
  refine ⟨hhost, ?_, ?_⟩
  · simp [create_http_peer, HttpPeer.new, hhost, hport]
  · simp [create_http_peer, HttpPeer.new, hhost]

/-- C5 (witness): `https://example.com:8080` resolves to a peer destination
`example.com:8080:8080` with SNI `example.com:8080`. -/
theorem explicit_port_duplicated_witness :
    ex_session_port.uri.authority = some ⟨"example.com", some 8080⟩ ∧
    (create_http_peer (extract_target_info ex_session_port)).address
      = "example.com:8080:8080" ∧
    (create_http_peer (extract_target_info ex_session_port)).sni
      = "example.com:8080" := by
  have hmain := explicit_port_duplicated ex_session_port "example.com" 8080 rfl
  refine ⟨rfl, ?_, ?_⟩
  · rw [hmain.2.1]; decide
  · rw [hmain.2.2]; decide

/-- C6: every request the filter hook denies gets the 407 challenge
response: status 407, the `Proxy-Authenticate: Basic realm="Proxy"` and
`Content-Type: text/plain` headers, and body
`Proxy Authentication Required`. -/
theorem request_filter_deny_response (p : MultiIPProxy) (s : Session)
    (hdeny : (request_filter p s).1 = true) :
    (request_filter p s).2 = some send_auth_required_response ∧
    send_auth_required_response.status = 407 ∧
    send_auth_required_response.headers
      = [("Proxy-Authenticate", "Basic realm=\"Proxy\""),
         ("Content-Type", "text/plain")] ∧
    send_auth_required_response.body = "Proxy Authentication Required" := by
  refine ⟨?_, rfl, rfl, rfl⟩
  unfold request_filter at hdeny ⊢
  by_cases hv : verify_authentication p (extract_auth_header s) <;>
    simp [hv] at hdeny ⊢

/-- C6 (witness): a request with no `Proxy-Authorization` header is denied
with the 407 challenge response. -/
theorem request_filter_deny_response_witness :
    (request_filter ex_proxy ex_session).1 = true ∧
    (request_filter ex_proxy ex_session).2
      = some send_auth_required_response :=
  ⟨rfl, (request_filter_deny_response ex_proxy ex_session rfl).1⟩

/-- C7: when authentication fails the per-request pipeline stops at the
filter hook with the 407 response and returns the proxy state unchanged —
in particular the shared request counter is untouched, because
`upstream_peer` (target resolution and egress selection) is never invoked. -/
theorem process_request_deny_frame (p : MultiIPProxy) (s : Session)
    (hdeny : verify_authentication p (extract_auth_header s) = false) :
    process_request p s
      = (RequestOutcome.denied send_auth_required_response, p) := by
  unfold process_request request_filter
  simp [hdeny]

/-- C7 (witness): a request with no header leaves the counter (indeed the
whole proxy state) unchanged and is denied. -/
theorem process_request_deny_frame_witness :
    verify_authentication ex_proxy (extract_auth_header ex_session) = false ∧
    process_request ex_proxy ex_session
      = (RequestOutcome.denied send_auth_required_response, ex_proxy) :=
  ⟨rfl, process_request_deny_frame ex_proxy ex_session rfl⟩

/-- C8: startup exits with a configuration error — before any listener is
started — exactly when the parsed IP pool (split on commas, trimmed, empty
entries dropped) is empty, the username is empty, or the password is
empty. -/
theorem startup_validation_iff (ip_pool_env proxy_user_env proxy_pass_env
    listen_addr_env : Option String) :
    (∃ msg, run_main ip_pool_env proxy_user_env proxy_pass_env
        listen_addr_env = MainOutcome.exit_error msg) ↔
    (parse_ip_pool (ip_pool_env.getD "127.0.0.1") = [] ∨
     proxy_user_env.getD "proxy_user" = "" ∨
     proxy_pass_env.getD "proxy_pass" = "") := by
  by_cases h1 : parse_ip_pool (ip_pool_env.getD "127.0.0.1") = [] <;>
  by_cases h2 : proxy_user_env.getD "proxy_user" = "" <;>
  by_cases h3 : proxy_pass_env.getD "proxy_pass" = "" <;>
    simp [run_main, load_from_environment, ProxyConfig.validate,
      List.isEmpty_iff, String.isEmpty_iff, h1, h2, h3]

/-- C10: a present `Proxy-Authorization` header whose bytes are not all
visible ASCII is extracted as `none`, so the filter treats the request
exactly like one with no header and denies it. -/
theorem invalid_header_bytes_denied (p : MultiIPProxy) (s : Session)
    (bytes : List Nat) (hb : s.proxy_authorization = some bytes)
    (hinv : bytes.all is_visible_ascii = false) :
    extract_auth_header s = none ∧
    request_filter p s
      = request_filter p { s with proxy_authorization := none } ∧
    (request_filter p s).1 = true := by
  have hext : extract_auth_header s = none := by
    have hto : header_value_to_str bytes = none := by
      unfold header_value_to_str
      rw [hinv]
      simp
    simp [extract_auth_header, hb, hto]
  have hnone : extract_auth_header { s with proxy_authorization := none }
      = none := by
    simp [extract_auth_header]
  refine ⟨hext, ?_, ?_⟩
  · simp [request_filter, hext, hnone]
  · simp [request_filter, hext, verify_authentication]

/-- C10 (witness): a header containing the byte `0x01` is rejected exactly
like an absent header. -/
theorem invalid_header_bytes_denied_witness :
    ex_session_bad.proxy_authorization = some [66, 1] ∧
    ([66, 1] : List Nat).all is_visible_ascii = false ∧
    extract_auth_header ex_session_bad = none ∧
    (request_filter ex_proxy ex_session_bad).1 = true :=
  ⟨rfl, rfl,
   (invalid_header_bytes_denied ex_proxy ex_session_bad [66, 1] rfl rfl).1,
   (invalid_header_bytes_denied ex_proxy ex_session_bad [66, 1] rfl rfl).2.2⟩

end PingoraForwardProxy
